import Mathlib

/-!
Verification of the duty-roster scheduler (nobetci-algoritma).

Shallow embedding of the core of the repository:
  app/schemas/schedule.py, app/schemas/schedule_senior.py  (request models)
  app/core/config.py                                       (Settings)
  app/services/scheduler/models.py                         (internal models)
  app/services/scheduler/solver.py                         (context build, extraction, roles)
  app/services/scheduler/constraints.py                    (hard constraints)
  app/services/scheduler/score.py                          (penalty builder)
  app/services/scheduler/senior_solver.py                  (senior variant)

Conventions of the embedding:
  - calendar dates are integers (day numbers); `(d2 - d1).days` becomes `d2 - d1`,
    and Python floor division `//` on possibly negative ints becomes `Int.fdiv`;
  - users and slots are addressed by their 0-based list position, which is exactly
    the `index` assigned by `_build_context` (enumeration order);
  - the Python `set` of unavailability pairs is modelled as a duplicate-free list
    in first-insertion order; every computation over it is order-independent
    (sums, counting increments, maxima), matching iteration over a set;
  - a CP-SAT solution is an assignment `x : Nat -> Nat -> Bool`; auxiliary solver
    variables defined by exact equalities (AddAbsEquality, AddMaxEquality,
    OnlyEnforceIf in both directions) are substituted by their values, and the
    min/max variables of the MinMax penalties, which are only bounded by
    inequalities, take their tight values in any objective-minimal solution, so
    every penalty becomes a function of `x`.
-/

namespace NobetciSpec

/-- Duty types of the full scheduler (schemas/schedule.py `DutyType`). -/
inductive DutyType
  | A | B | C | D | E | F
  deriving DecidableEq, Repr

/-- Day type (schemas/schedule.py `DayType`). -/
inductive DayType
  | WEEKDAY | WEEKEND
  deriving DecidableEq, Repr

/-- Seat role for A slots (schemas/schedule.py `SeatRole`). -/
inductive SeatRole
  | DESK | OPERATOR
  deriving DecidableEq, Repr

/-- Senior variant segments (schemas/schedule_senior.py `Segment`). -/
inductive Segment
  | MORNING | EVENING
  deriving DecidableEq, Repr

/-- Unavailability fairness categories; the source uses the string keys
"A", "B", "C", "Weekend" (solver.py `_build_context`). -/
inductive Cat
  | A | B | C | Weekend
  deriving DecidableEq, Repr

/-- constraints.py `is_night_duty`: C or F. -/
def is_night_duty : DutyType → Bool
  | .C | .F => true
  | _ => false

/-- constraints.py `is_morning_duty`: A or D. -/
def is_morning_duty : DutyType → Bool
  | .A | .D => true
  | _ => false

/-- constraints.py `is_weekend_duty`: D, E or F. -/
def is_weekend_duty : DutyType → Bool
  | .D | .E | .F => true
  | _ => false

/-- solver.py / score.py local `_get_category`: D, E, F map to Weekend,
A, B, C map to themselves. -/
def getCategory : DutyType → Cat
  | .D | .E | .F => .Weekend
  | .A => .A
  | .B => .B
  | .C => .C

/-- constraints.py `get_week_index`: `(d - start_date).days // 7`
(Python floor division). -/
def get_week_index (d start_date : Int) : Int :=
  Int.fdiv (d - start_date) 7

/-- schemas/schedule.py `Period`. -/
structure Period where
  id : String
  name : String
  startDate : Int
  endDate : Int

/-- schemas/schedule.py `SlotTypeCounts` (all fields `ge=0`, default 0). -/
structure SlotTypeCounts where
  A : Int := 0
  B : Int := 0
  C : Int := 0
  D : Int := 0
  E : Int := 0
  F : Int := 0

/-- schemas/schedule.py `UserHistory`.  `expectedTotal` has pydantic default
`None`, hence the `Option`. -/
structure UserHistory where
  weekdayCount : Int := 0
  weekendCount : Int := 0
  expectedTotal : Option Int := none
  slotTypeCounts : SlotTypeCounts := {}

/-- schemas/schedule.py `UserHistory.totalAllTime` property. -/
def UserHistory.totalAllTime (h : UserHistory) : Int :=
  h.weekdayCount + h.weekendCount

/-- schemas/schedule.py `UserHistory.countNightAllTime` property: C + F. -/
def UserHistory.countNightAllTime (h : UserHistory) : Int :=
  h.slotTypeCounts.C + h.slotTypeCounts.F

/-- schemas/schedule.py `User`. -/
structure User where
  id : String
  name : String
  email : Option String := none
  likesNight : Bool := false
  dislikesWeekend : Bool := false
  history : UserHistory := {}

/-- schemas/schedule.py `Seat`. -/
structure Seat where
  id : String
  role : Option SeatRole := none

/-- schemas/schedule.py `Slot` (field `slot_date` has wire alias `date`). -/
structure Slot where
  id : String
  slot_date : Int
  dutyType : DutyType
  dayType : DayType
  seats : List Seat

/-- schemas/schedule.py `Slot.requiredCount` property: number of seats. -/
def Slot.requiredCount (s : Slot) : Nat := s.seats.length

/-- schemas/schedule.py `Unavailability`. -/
structure Unavailability where
  userId : String
  slotId : String
  deriving DecidableEq

/-- schemas/schedule.py `ScheduleRequest`. -/
structure ScheduleRequest where
  period : Period
  users : List User
  slots : List Slot
  unavailability : List Unavailability := []

/-- The structural constraints pydantic enforces on `SlotTypeCounts`
(every field `ge=0`). -/
def validSlotTypeCounts (c : SlotTypeCounts) : Bool :=
  decide (0 ≤ c.A) && decide (0 ≤ c.B) && decide (0 ≤ c.C) &&
  decide (0 ≤ c.D) && decide (0 ≤ c.E) && decide (0 ≤ c.F)

/-- The structural constraints pydantic enforces on `UserHistory`
(`weekdayCount`, `weekendCount` are `ge=0`; `expectedTotal` is unconstrained). -/
def validUserHistory (h : UserHistory) : Bool :=
  decide (0 ≤ h.weekdayCount) && decide (0 ≤ h.weekendCount) &&
  validSlotTypeCounts h.slotTypeCounts

/-- pydantic validation of `ScheduleRequest`: `users` and `slots` have
`min_length=1`, every `Slot.seats` has `min_length=1`, histories are
well-typed.  `Unavailability` entries are two plain strings with no
cross-reference constraint (schemas/schedule.py lines 124-137). -/
def validScheduleRequest (r : ScheduleRequest) : Bool :=
  decide (1 ≤ r.users.length) && decide (1 ≤ r.slots.length) &&
  r.slots.all (fun s => decide (1 ≤ s.seats.length)) &&
  r.users.all (fun u => validUserHistory u.history)

/-- models.py `InternalSeat` (slot-internal index is the list position). -/
structure InternalSeat where
  id : String := ""
  role : Option SeatRole := none
  deriving DecidableEq

/-- models.py `InternalUser`.  The dataclass annotates `history_expected : int`,
but `_build_context` assigns `user.history.expectedTotal` to it unchanged, and
that pydantic field defaults to `None`; at runtime the value is therefore
optional, hence the `Option Int` here (see claim C6). -/
structure InternalUser where
  id : String := ""
  name : String := ""
  history_total : Int := 0
  history_expected : Option Int := none
  history_a : Int := 0
  history_b : Int := 0
  history_c : Int := 0
  history_weekend : Int := 0
  history_night : Int := 0
  history_desk : Int := 0
  history_operator : Int := 0
  likes_night : Bool := false
  dislikes_weekend : Bool := false
  deriving DecidableEq

/-- models.py `InternalSlot` (its `index` is the list position). -/
structure InternalSlot where
  id : String := ""
  date : Int
  duty_type : DutyType
  day_type : DayType
  required_count : Nat
  seats : List InternalSeat := []
  deriving DecidableEq

/-- models.py `SchedulerContext`, restricted to the fields the verified code
paths read.  `user_id_to_index`, `slot_id_to_index`, `seat_id_to_slot_index`
and `date_to_slot_indices` are represented by the lookup functions below;
`slot_unavailability_count` is `slotUnavailabilityCount` below.  The blocked
statistics (`total_blocked_count`, `max_total_blocked`, `type_ideals`) are NOT
declared on the dataclass even though `_build_context` reads them: that is the
subject of claim C1; their intended values are the derived functions
`blockedCountPerCategory`, `maxBlockedPerCategory`, `totalBlockedCount`,
`maxTotalBlocked` below. -/
structure SchedulerContext where
  users : List InternalUser
  slots : List InternalSlot
  unavailability_set : List (Nat × Nat) := []
  total_seats : Nat := 0
  base_shifts : Nat := 0
  deriving DecidableEq

/-- Python dict construction `m[k] = i` over an enumeration: a later binding of
the same id overwrites an earlier one, so lookup returns the LAST index whose
id matches (`user_id_to_index` / `slot_id_to_index` in `_build_context`). -/
def lastIndexOf (ids : List String) (x : String) : Option Nat :=
  ids.enum.foldl (fun acc p => if p.2 = x then some p.1 else acc) none

/-- `set.add`: append the element only if it is not already present.
Models Python set insertion (iteration order is never observed). -/
def insertNew {α : Type} [DecidableEq α] (l : List α) (p : α) : List α :=
  if p ∈ l then l else l ++ [p]

/-- The unavailability loop of `_build_context` (solver.py lines 131-140):
resolve both ids; if either is unknown the entry is silently skipped,
otherwise the index pair is added to the set. -/
def buildUnavailabilitySet (userIds slotIds : List String)
    (entries : List Unavailability) : List (Nat × Nat) :=
  entries.foldl
    (fun acc e =>
      match lastIndexOf userIds e.userId, lastIndexOf slotIds e.slotId with
      | some u, some s => insertNew acc (u, s)
      | _, _ => acc)
    []

/-- `context.slot_unavailability_count[slot_idx]`: incremented once per
resolvable request ENTRY (not per set element), so duplicates are counted.
It is written in `_build_context` and never read anywhere else. -/
def slotUnavailabilityCount (userIds slotIds : List String)
    (entries : List Unavailability) (sIdx : Nat) : Nat :=
  (entries.filter (fun e =>
    (lastIndexOf userIds e.userId).isSome &&
    decide (lastIndexOf slotIds e.slotId = some sIdx))).length

/-- User conversion in `_build_context` (solver.py lines 82-98). -/
def mkInternalUser (u : User) : InternalUser :=
  { id := u.id
    name := u.name
    history_total := u.history.totalAllTime
    history_expected := u.history.expectedTotal
    history_a := u.history.slotTypeCounts.A
    history_b := u.history.slotTypeCounts.B
    history_c := u.history.slotTypeCounts.C
    history_weekend := u.history.weekendCount
    history_night := u.history.countNightAllTime
    likes_night := u.likesNight
    dislikes_weekend := u.dislikesWeekend }

/-- Slot conversion in `_build_context` (solver.py lines 101-123). -/
def mkInternalSlot (s : Slot) : InternalSlot :=
  { id := s.id
    date := s.slot_date
    duty_type := s.dutyType
    day_type := s.dayType
    required_count := s.requiredCount
    seats := s.seats.map (fun st => { id := st.id, role := st.role }) }

/-- The value content of `SchedulerSolver._build_context`: internal users and
slots in request order, the deduplicated unavailability index set,
`total_seats = sum of required_count` and `base = total_seats // len(users)`
(0 when there are no users). -/
def buildContext (r : ScheduleRequest) : SchedulerContext :=
  { users := r.users.map mkInternalUser
    slots := r.slots.map mkInternalSlot
    unavailability_set :=
      buildUnavailabilitySet (r.users.map User.id) (r.slots.map Slot.id)
        r.unavailability
    total_seats := (r.slots.map Slot.requiredCount).sum
    base_shifts :=
      if r.users.length = 0 then 0
      else (r.slots.map Slot.requiredCount).sum / r.users.length }

/-- The fields that models.py actually declares on the `SchedulerContext`
dataclass.  Reading any other attribute raises `AttributeError`. -/
def schedulerContextDeclaredFields : List String :=
  ["users", "slots", "user_id_to_index", "slot_id_to_index",
   "unavailability_set", "date_to_slot_indices", "total_seats", "base_shifts",
   "all_seats", "seat_id_to_slot_index", "slot_unavailability_count",
   "blocked_count_per_category", "max_blocked_per_category"]

/-- Python attribute read on a `SchedulerContext` instance: succeeds exactly
for the declared dataclass fields. -/
def readContextAttr (name : String) : Except String Unit :=
  if schedulerContextDeclaredFields.contains name then .ok ()
  else .error ("AttributeError: SchedulerContext object has no attribute " ++ name)

/-- `SchedulerSolver._build_context` as executed: the loop at solver.py lines
170-174 (`context.total_blocked_count[user.index] = total`) runs its body once
per user, and its first statement reads the attribute `total_blocked_count`,
which models.py never declares.  So the build raises `AttributeError` exactly
when the request has at least one user; with no users it completes (the later
`type_ideals` write and the `settings.penalty_total_minmax` read in
`_add_total_minmax_penalty`, both equally undeclared, are then also skipped). -/
def buildContextRun (r : ScheduleRequest) : Except String SchedulerContext :=
  if r.users.isEmpty then .ok (buildContext r)
  else do
    readContextAttr ("total_blocked_count")
    .ok (buildContext r)

/-- config.py `Settings`, with its defaults.  Note that `penalty_total_minmax`
is NOT among the declared settings although `score.py` reads
`self.settings.penalty_total_minmax`; the objective below therefore takes that
weight as an explicit extra parameter (claim C1 covers the failing read). -/
structure Settings where
  scheduler_time_limit_seconds : Int := 60
  scheduler_random_seed : Int := 42
  penalty_unavailability : Int := 200000
  penalty_zero_shifts : Int := 80000
  penalty_above_ideal_strong : Int := 60000
  penalty_below_ideal_strong : Int := 60000
  penalty_consecutive_days : Int := 7000
  penalty_ideal_soft : Int := 4000
  penalty_history_fairness : Int := 3000
  penalty_fairness_duty_type : Int := 50000
  penalty_fairness_night : Int := 50000
  penalty_fairness_weekend_slots : Int := 25000
  penalty_weekly_clustering : Int := 100
  penalty_consecutive_nights : Int := 100
  penalty_two_shifts_same_day : Int := 100
  penalty_dislikes_weekend : Int := 10
  bonus_likes_night : Int := 5
  penalty_unavailability_fairness : Int := 1000
  penalty_unavailability_violation : Int := 25000

/-- The default settings instance (`get_settings` with no environment). -/
def settingsDefault : Settings := {}

/-- A CP-SAT solution: `x u s = true` iff user `u` fills a seat in slot `s`. -/
def Assign : Type := Nat → Nat → Bool

/-- 0/1 value of a boolean decision variable. -/
def indicator (b : Bool) : Int := if b then 1 else 0

/-- Duty type of the slot at position `s` (positions are always in range where
this is used; the default is never reached). -/
def dutyTypeOfSlot (ctx : SchedulerContext) (s : Nat) : DutyType :=
  ((ctx.slots.get? s).map InternalSlot.duty_type).getD .A

/-- Date of the slot at position `s`. -/
def slotDate (ctx : SchedulerContext) (s : Nat) : Int :=
  ((ctx.slots.get? s).map InternalSlot.date).getD 0

/-- Required count of the slot at position `s`. -/
def requiredCountAt (ctx : SchedulerContext) (s : Nat) : Nat :=
  ((ctx.slots.get? s).map InternalSlot.required_count).getD 0

/-- User record at position `u`. -/
def userAt (ctx : SchedulerContext) (u : Nat) : InternalUser :=
  (ctx.users.get? u).getD {}

/-- `count[u] = sum over slots of x[u, s]` (the `user_shift_counts` IntVar). -/
def userShiftCount (ctx : SchedulerContext) (x : Assign) (u : Nat) : Int :=
  ((List.range ctx.slots.length).map (fun s => indicator (x u s))).sum

/-- Number of assigned users of slot `s` (`sum over users of x[u, s]`). -/
def slotAssignedCount (ctx : SchedulerContext) (x : Assign) (s : Nat) : Int :=
  ((List.range ctx.users.length).map (fun u => indicator (x u s))).sum

/-- Sum of `x[u, s]` over a list of slot positions. -/
def countOver (x : Assign) (u : Nat) (idxs : List Nat) : Int :=
  (idxs.map (fun i => indicator (x u i))).sum

/-- Keys of a Python dict built by repeated insertion, in first-insertion
order (used for `date_to_slot_indices.keys()` and the week buckets). -/
def dedupKeepFirst {α : Type} [DecidableEq α] (l : List α) : List α :=
  l.foldl insertNew []

/-- The distinct slot dates, in first appearance order
(`date_to_slot_indices` keys). -/
def dateKeys (ctx : SchedulerContext) : List Int :=
  dedupKeepFirst (ctx.slots.map InternalSlot.date)

/-- `date_to_slot_indices[d]`: the positions of the slots dated `d`, in slot
order. -/
def dateSlotIndices (ctx : SchedulerContext) (d : Int) : List Nat :=
  (List.range ctx.slots.length).filter (fun i => decide (slotDate ctx i = d))

/-- Insert into a sorted list of dates. -/
def insertSorted (d : Int) : List Int → List Int
  | [] => [d]
  | a :: rest => if d ≤ a then d :: a :: rest else a :: insertSorted d rest

/-- `sorted(...)` on a list of dates (insertion sort). -/
def sortInts (l : List Int) : List Int := l.foldr insertSorted []

/-- `sorted(self.ctx.date_to_slot_indices.keys())`. -/
def sortedDates (ctx : SchedulerContext) : List Int :=
  sortInts (dateKeys ctx)

/-- Consecutive pairs of a list. -/
def windows2 : List Int → List (Int × Int)
  | a :: b :: rest => (a, b) :: windows2 (b :: rest)
  | _ => []

/-- Consecutive triples of a list. -/
def windows3 : List Int → List (Int × Int × Int)
  | a :: b :: c :: rest => (a, b, c) :: windows3 (b :: c :: rest)
  | _ => []

/-- Hard constraint 1 (constraints.py `add_coverage_constraint`):
every slot is filled to exactly `required_count`. -/
def coverageOk (ctx : SchedulerContext) (x : Assign) : Bool :=
  (List.range ctx.slots.length).all (fun s =>
    decide (slotAssignedCount ctx x s = (requiredCountAt ctx s : Int)))

/-- Hard constraint 4 (constraints.py `add_max_two_shifts_per_day_constraint`):
at most 2 slots per user per date; the constraint is only emitted for dates
with more than 2 slots (it is implied otherwise). -/
def maxTwoPerDayOk (ctx : SchedulerContext) (x : Assign) : Bool :=
  (dateKeys ctx).all (fun d =>
    let g := dateSlotIndices ctx d
    if g.length ≤ 2 then true
    else (List.range ctx.users.length).all (fun u => decide (countOver x u g ≤ 2)))

/-- Hard constraint 2 (constraints.py `add_forbidden_transition_constraint`):
for every date, every night slot (C/F) and morning slot (A/D) of that date,
and every user, `x[u, night] + x[u, morning] <= 1`. -/
def forbiddenTransitionOk (ctx : SchedulerContext) (x : Assign) : Bool :=
  (dateKeys ctx).all (fun d =>
    let g := dateSlotIndices ctx d
    let nights := g.filter (fun i => is_night_duty (dutyTypeOfSlot ctx i))
    let mornings := g.filter (fun i => is_morning_duty (dutyTypeOfSlot ctx i))
    (List.range ctx.users.length).all (fun u =>
      nights.all (fun n =>
        mornings.all (fun m =>
          decide (indicator (x u n) + indicator (x u m) ≤ 1)))))

/-- Hard constraint 3 (constraints.py `add_max_shifts_constraint`, called with
`max_allowed = base + 2`): per user, `count <= max_allowed` and
`count >= max(0, max_allowed - 4)`. -/
def maxShiftsOk (ctx : SchedulerContext) (x : Assign) : Bool :=
  (List.range ctx.users.length).all (fun u =>
    decide (userShiftCount ctx x u ≤ (ctx.base_shifts : Int) + 2) &&
    decide (max 0 ((ctx.base_shifts : Int) + 2 - 4) ≤ userShiftCount ctx x u))

/-- constraints.py `add_all_hard_constraints`: conjunction of the four hard
constraints of the full variant. -/
def fullHardSat (ctx : SchedulerContext) (x : Assign) : Bool :=
  coverageOk ctx x && maxTwoPerDayOk ctx x && forbiddenTransitionOk ctx x &&
  maxShiftsOk ctx x

/-- The blocked-count increment of `_build_context`: bump the per-user,
per-category counter at `(u, c)`. -/
def bumpBlocked (f : Nat → Cat → Nat) (u : Nat) (c : Cat) : Nat → Cat → Nat :=
  fun v d => if v = u ∧ d = c then f v d + 1 else f v d

/-- `context.blocked_count_per_category` (solver.py lines 149-159): start every
user at 0 in every category and add 1 for each unavailability pair, in the
category of the pair's slot. -/
def blockedCountPerCategory (ctx : SchedulerContext) : Nat → Cat → Nat :=
  ctx.unavailability_set.foldl
    (fun f p => bumpBlocked f p.1 (getCategory (dutyTypeOfSlot ctx p.2)))
    (fun _ _ => 0)

/-- `context.max_blocked_per_category[cat]` (solver.py lines 161-166):
maximum of the per-user counters, starting from 0. -/
def maxBlockedPerCategory (ctx : SchedulerContext) (c : Cat) : Nat :=
  ((List.range ctx.users.length).map (fun u => blockedCountPerCategory ctx u c)).foldl
    max 0

/-- `context.total_blocked_count[user]` (solver.py lines 170-172): the sum of
the user's four category counters. -/
def totalBlockedCount (ctx : SchedulerContext) (u : Nat) : Nat :=
  blockedCountPerCategory ctx u .A + blockedCountPerCategory ctx u .B +
  blockedCountPerCategory ctx u .C + blockedCountPerCategory ctx u .Weekend

/-- `context.max_total_blocked` (solver.py lines 173-174). -/
def maxTotalBlocked (ctx : SchedulerContext) : Nat :=
  ((List.range ctx.users.length).map (totalBlockedCount ctx)).foldl max 0

/-- The fixed per-pair weight of `_add_unavailability_penalty` (score.py lines
290-318): base weight plus the category fairness extra plus the total-blocked
tie-breaker (`fairness_weight // 10` is Python floor division). -/
def unavailPairCoeff (s : Settings) (ctx : SchedulerContext) (p : Nat × Nat) : Int :=
  s.penalty_unavailability
    + ((maxBlockedPerCategory ctx (getCategory (dutyTypeOfSlot ctx p.2)) : Int)
        - (blockedCountPerCategory ctx p.1 (getCategory (dutyTypeOfSlot ctx p.2)) : Int))
        * s.penalty_unavailability_fairness
    + ((maxTotalBlocked ctx : Int) - (totalBlockedCount ctx p.1 : Int))
        * Int.fdiv s.penalty_unavailability_fairness 10

/-- `violation_count` of a user: sum of `x[u, s]` over the user's pairs in the
unavailability set (score.py lines 272-287). -/
def unavailViolationCount (ctx : SchedulerContext) (x : Assign) (u : Nat) : Int :=
  ((ctx.unavailability_set.filter (fun p => decide (p.1 = u))).map
    (fun p => indicator (x p.1 p.2))).sum

/-- `_add_unavailability_penalty`: one term `x[u, s] * coeff` per pair of the
set, plus per user `max(0, violation_count - 1) * violation_weight`. -/
def unavailabilityPenalty (s : Settings) (ctx : SchedulerContext) (x : Assign) : Int :=
  (ctx.unavailability_set.map (fun p => indicator (x p.1 p.2) * unavailPairCoeff s ctx p)).sum
  + ((List.range ctx.users.length).map (fun u =>
      max 0 (unavailViolationCount ctx x u - 1) * s.penalty_unavailability_violation)).sum

/-- `day_var` of `_add_consecutive_days_penalty`: user `u` has a slot of duty
type `t` on date `d` (OR over the slots of that type and date; dates without
such slots give the constant 0). -/
def userHasTypeOnDate (ctx : SchedulerContext) (x : Assign) (t : DutyType)
    (u : Nat) (d : Int) : Bool :=
  (dateSlotIndices ctx d).any (fun i => decide (dutyTypeOfSlot ctx i = t) && x u i)

/-- `_add_consecutive_days_penalty` (score.py lines 423-489): for every duty
type, user and window of three consecutive sorted dates, a term
`weight * AND(day1, day2, day3)`. -/
def consecutiveDaysPenalty (s : Settings) (ctx : SchedulerContext) (x : Assign) : Int :=
  ([DutyType.A, .B, .C, .D, .E, .F].map (fun t =>
    ((List.range ctx.users.length).map (fun u =>
      ((windows3 (sortedDates ctx)).map (fun w =>
        if w.2.1 - w.1 = 1 ∧ w.2.2 - w.2.1 = 1 ∧
            userHasTypeOnDate ctx x t u w.1 = true ∧
            userHasTypeOnDate ctx x t u w.2.1 = true ∧
            userHasTypeOnDate ctx x t u w.2.2 = true
        then s.penalty_consecutive_days else 0)).sum)).sum)).sum

/-- `max` of a list of nonnegative counters, as the CP model computes it
(`max_val` is bounded below by every count and by its domain lower bound 0). -/
def intListMax (l : List Int) : Int := l.foldl max 0

/-- `min` of a nonempty list of counters (`min_val` is bounded above by every
count); 0 for the empty list. -/
def intListMin : List Int → Int
  | [] => 0
  | a :: rest => rest.foldl min a

/-- `_add_total_minmax_penalty` (score.py lines 138-173): skipped for fewer
than 2 users, otherwise `(max count - min count) * weight`.  The weight is the
undeclared `settings.penalty_total_minmax`, passed explicitly (see C1). -/
def totalMinmaxPenalty (wtm : Int) (ctx : SchedulerContext) (x : Assign) : Int :=
  if ctx.users.length < 2 then 0
  else
    let counts := (List.range ctx.users.length).map (userShiftCount ctx x)
    (intListMax counts - intListMin counts) * wtm

/-- Slot positions satisfying a predicate (the per-group slot lists of the
fairness penalties). -/
def slotsOfPred (ctx : SchedulerContext) (pred : Nat → Bool) : List Nat :=
  (List.range ctx.slots.length).filter pred

/-- MinMax range of per-user counts over a slot group, times a weight. -/
def groupRangePenalty (ctx : SchedulerContext) (x : Assign) (idxs : List Nat)
    (w : Int) : Int :=
  let counts := (List.range ctx.users.length).map (fun u => countOver x u idxs)
  (intListMax counts - intListMin counts) * w

/-- `_add_duty_type_fairness_penalty` (score.py lines 491-557): MinMax range
per group A, B, C, WEEKEND (D+E+F), empty groups skipped; only guarded by
`num_users == 0`. -/
def dutyTypeFairnessPenalty (s : Settings) (ctx : SchedulerContext) (x : Assign) : Int :=
  if ctx.users.length = 0 then 0
  else
    let gA := slotsOfPred ctx (fun i => decide (dutyTypeOfSlot ctx i = .A))
    let gB := slotsOfPred ctx (fun i => decide (dutyTypeOfSlot ctx i = .B))
    let gC := slotsOfPred ctx (fun i => decide (dutyTypeOfSlot ctx i = .C))
    let gW := slotsOfPred ctx (fun i => is_weekend_duty (dutyTypeOfSlot ctx i))
    (if gA.isEmpty then 0 else groupRangePenalty ctx x gA s.penalty_fairness_duty_type)
    + (if gB.isEmpty then 0 else groupRangePenalty ctx x gB s.penalty_fairness_duty_type)
    + (if gC.isEmpty then 0 else groupRangePenalty ctx x gC s.penalty_fairness_duty_type)
    + (if gW.isEmpty then 0 else groupRangePenalty ctx x gW s.penalty_fairness_duty_type)

/-- `_add_weekend_slot_fairness_penalty` (score.py lines 599-640): MinMax per
duty type D, E, F separately; skipped for fewer than 2 users. -/
def weekendSlotFairnessPenalty (s : Settings) (ctx : SchedulerContext) (x : Assign) : Int :=
  if ctx.users.length < 2 then 0
  else
    ([DutyType.D, .E, .F].map (fun t =>
      let g := slotsOfPred ctx (fun i => decide (dutyTypeOfSlot ctx i = t))
      if g.isEmpty then 0
      else groupRangePenalty ctx x g s.penalty_fairness_weekend_slots)).sum

/-- `_add_night_fairness_penalty` (score.py lines 559-597): MinMax over the
night slots (C and F together); skipped for fewer than 2 users or no night
slots. -/
def nightFairnessPenalty (s : Settings) (ctx : SchedulerContext) (x : Assign) : Int :=
  if ctx.users.length < 2 then 0
  else
    let g := slotsOfPred ctx (fun i => is_night_duty (dutyTypeOfSlot ctx i))
    if g.isEmpty then 0 else groupRangePenalty ctx x g s.penalty_fairness_night

/-- The clamp of `_compute_ideal_current`:
`max(min_ideal, min(max_ideal, value))` with `min_ideal = max(0, base - 2)`
and `max_ideal = base + 2` (`round` of an int is the int itself). -/
def clampIdeal (base v : Int) : Int :=
  max (max 0 (base - 2)) (min (base + 2) v)

/-- `PenaltyBuilder._compute_ideal_current` (score.py lines 104-136):
`ideal = clamp(base - (history_total - history_expected))` per user.  When
`history_expected` is `None` (the request omitted `expectedTotal`), the
subtraction `user.history_total - user.history_expected` is an `int - None`
and raises `TypeError` (claim C6). -/
def computeIdealCurrent (ctx : SchedulerContext) : Except String (List Int) :=
  ctx.users.mapM (fun u =>
    match u.history_expected with
    | none => .error ("TypeError: unsupported operand types for int minus NoneType")
    | some e =>
        .ok (clampIdeal (ctx.base_shifts : Int)
              ((ctx.base_shifts : Int) - (u.history_total - e))))

/-- Modelled from the spec: `expectedTotal` "may be absent, treated as 0", so
the per-user ideal is `clamp(base - (totalAllTime - 0), max(0, base-2), base+2)`
for a user whose history omits it.  Comparison definition for claim C6. -/
def computeIdealCurrentSpec (ctx : SchedulerContext) : List Int :=
  ctx.users.map (fun u =>
    clampIdeal (ctx.base_shifts : Int)
      ((ctx.base_shifts : Int) - (u.history_total - u.history_expected.getD 0)))

/-- `_add_ideal_soft_penalty` (score.py lines 175-206):
`|count - ideal| * weight` per user. -/
def idealSoftPenalty (s : Settings) (ctx : SchedulerContext) (x : Assign)
    (ideal : List Int) : Int :=
  ((List.range ctx.users.length).map (fun u =>
    |userShiftCount ctx x u - ideal.getD u 0| * s.penalty_ideal_soft)).sum

/-- `_add_history_fairness_penalty` (score.py lines 383-421):
`|count - ideal| * weight` per user, skipped for fewer than 2 users. -/
def historyFairnessPenalty (s : Settings) (ctx : SchedulerContext) (x : Assign)
    (ideal : List Int) : Int :=
  if ctx.users.length < 2 then 0
  else
    ((List.range ctx.users.length).map (fun u =>
      |userShiftCount ctx x u - ideal.getD u 0| * s.penalty_history_fairness)).sum

/-- `_add_zero_shifts_penalty` (score.py lines 208-232): `weight` for every
user whose shift count is 0 (`is_zero` is fixed by `OnlyEnforceIf` in both
directions).  This method is DEFINED in score.py but `build_all_penalties`
never invokes it, so this term is absent from the objective (claim C2). -/
def zeroShiftsPenalty (s : Settings) (ctx : SchedulerContext) (x : Assign) : Int :=
  ((List.range ctx.users.length).map (fun u =>
    if userShiftCount ctx x u = 0 then s.penalty_zero_shifts else 0)).sum

/-- Earliest slot date: `sorted(date_to_slot_indices.keys())[0]`
(0 for no slots, unused in that case). -/
def minSlotDate (ctx : SchedulerContext) : Int :=
  match ctx.slots.map InternalSlot.date with
  | [] => 0
  | d :: rest => rest.foldl min d

/-- The distinct week indices of a date list relative to an anchor, in first
appearance order (the keys of the `week_slots` dict). -/
def weekBuckets (anchor : Int) (dates : List Int) : List Int :=
  dedupKeepFirst (dates.map (fun d => get_week_index d anchor))

/-- The slot positions whose date falls in week bucket `w`. -/
def bucketSlotIdx (anchor : Int) (dates : List Int) (w : Int) : List Nat :=
  (List.range dates.length).filter
    (fun i => decide (get_week_index (dates.getD i 0) anchor = w))

/-- `_add_weekly_clustering_penalty` of the FULL variant (score.py lines
642-689): the anchor is the EARLIEST SLOT DATE (`sorted_dates[0]`), buckets
with fewer than 3 slots are skipped, and each remaining bucket contributes
`max(0, weekCount - 2) * weight` per user. -/
def weeklyClusteringPenaltyFull (s : Settings) (ctx : SchedulerContext) (x : Assign) : Int :=
  if ctx.slots.isEmpty then 0
  else
    ((List.range ctx.users.length).map (fun u =>
      ((weekBuckets (minSlotDate ctx) (ctx.slots.map InternalSlot.date)).map (fun w =>
        if (bucketSlotIdx (minSlotDate ctx) (ctx.slots.map InternalSlot.date) w).length < 3
        then 0
        else max 0 (countOver x u
              (bucketSlotIdx (minSlotDate ctx) (ctx.slots.map InternalSlot.date) w) - 2)
          * s.penalty_weekly_clustering)).sum)).sum

/-- The weekly-clustering penalty exactly as the claim words it: 7-day buckets
counted from a given anchor, and `max(0, weekCount - 2) * w_weekly` for every
user and bucket.  Comparison definition for claim C5. -/
def weeklyClusteringPenaltySpec (w_weekly anchor : Int) (numUsers : Nat)
    (dates : List Int) (x : Assign) : Int :=
  ((List.range numUsers).map (fun u =>
    ((weekBuckets anchor dates).map (fun w =>
      max 0 (countOver x u (bucketSlotIdx anchor dates w) - 2) * w_weekly)).sum)).sum

/-- `_add_consecutive_nights_penalty` (score.py lines 691-739): for every pair
of adjacent sorted dates that both carry night slots, a term
`weight * AND(hasNight d1, hasNight d2)` per user. -/
def consecutiveNightsPenalty (s : Settings) (ctx : SchedulerContext) (x : Assign) : Int :=
  ((List.range ctx.users.length).map (fun u =>
    ((windows2 (sortedDates ctx)).map (fun p =>
      let n1 := (dateSlotIndices ctx p.1).filter
        (fun i => is_night_duty (dutyTypeOfSlot ctx i))
      let n2 := (dateSlotIndices ctx p.2).filter
        (fun i => is_night_duty (dutyTypeOfSlot ctx i))
      if p.2 - p.1 = 1 ∧ n1 ≠ [] ∧ n2 ≠ [] ∧
          n1.any (fun i => x u i) = true ∧ n2.any (fun i => x u i) = true
      then s.penalty_consecutive_nights else 0)).sum)).sum

/-- `_add_two_shifts_same_day_penalty` (score.py lines 741-771): for every
date with at least 2 slots and every user, `weight * [dayCount = 2]`. -/
def twoShiftsSameDayPenalty (s : Settings) (ctx : SchedulerContext) (x : Assign) : Int :=
  ((dateKeys ctx).map (fun d =>
    let g := dateSlotIndices ctx d
    if g.length < 2 then 0
    else ((List.range ctx.users.length).map (fun u =>
      if countOver x u g = 2 then s.penalty_two_shifts_same_day else 0)).sum)).sum

/-- `_add_preference_penalties` (score.py lines 773-794): `+weight` per
weekend slot taken by a weekend-disliking user, `-bonus` per night slot taken
by a night-liking user. -/
def preferencePenalties (s : Settings) (ctx : SchedulerContext) (x : Assign) : Int :=
  ((List.range ctx.users.length).map (fun u =>
    (if (userAt ctx u).dislikes_weekend then
      ((slotsOfPred ctx (fun i => is_weekend_duty (dutyTypeOfSlot ctx i))).map
        (fun i => indicator (x u i) * s.penalty_dislikes_weekend)).sum
    else 0)
    + (if (userAt ctx u).likes_night then
      ((slotsOfPred ctx (fun i => is_night_duty (dutyTypeOfSlot ctx i))).map
        (fun i => indicator (x u i) * (-s.bonus_likes_night))).sum
    else 0))).sum

/-- The objective of the full variant as `build_all_penalties` assembles it
(score.py lines 54-102): it first computes `ideal_current` and then adds the
twelve penalty families below — and no others; in particular
`_add_zero_shifts_penalty` is not called.  `wtm` stands for the read of
`settings.penalty_total_minmax`, which config.py does not declare (see C1). -/
def fullObjective (s : Settings) (wtm : Int) (ctx : SchedulerContext)
    (x : Assign) : Except String Int :=
  (computeIdealCurrent ctx).map (fun ideal =>
    unavailabilityPenalty s ctx x
    + consecutiveDaysPenalty s ctx x
    + totalMinmaxPenalty wtm ctx x
    + dutyTypeFairnessPenalty s ctx x
    + weekendSlotFairnessPenalty s ctx x
    + nightFairnessPenalty s ctx x
    + idealSoftPenalty s ctx x ideal
    + historyFairnessPenalty s ctx x ideal
    + weeklyClusteringPenaltyFull s ctx x
    + consecutiveNightsPenalty s ctx x
    + twoShiftsSameDayPenalty s ctx x
    + preferencePenalties s ctx x)

/-- The number of violated unavailability pairs of a solution, as the result
extraction counts it (solver.py lines 350-354). -/
def unavailabilityViolationsStat (ctx : SchedulerContext) (x : Assign) : Nat :=
  (ctx.unavailability_set.filter (fun p => x p.1 p.2)).length

/-- score.py `calculate_desk_operator_distribution`: the desk/operator split
for an A slot with `count` assignees. -/
def calculate_desk_operator_distribution (count : Nat) : Nat × Nat :=
  if count = 0 then (0, 0)
  else if count = 1 then (0, 1)
  else if count = 2 then (1, 1)
  else if count = 3 then (1, 2)
  else if count = 4 then (2, 2)
  else if count = 5 then (3, 2)
  else if count = 6 then (3, 3)
  else if count = 7 then (4, 3)
  else ((count + 1) / 2, count - (count + 1) / 2)

/-- The role pass of `_assign_desk_operator_roles` on one A slot: the first
`desk_needed` assignees (in desk-priority order) get DESK; of the remaining
ones (in operator-priority order) the first `operator_needed` get OPERATOR;
any further assignee would keep `None`.  The two priority sorts only permute
the group, and the properties claimed (role counts per slot, null roles on
non-A slots) are invariant under that permutation, so the group is taken in
the given order. -/
def assignRolesGroup (g : List Nat) : List (Nat × Option SeatRole) :=
  let dk := (calculate_desk_operator_distribution g.length).1
  let op := (calculate_desk_operator_distribution g.length).2
  ((g.take dk).map (fun u => (u, some SeatRole.DESK)))
    ++ (((g.drop dk).take op).map (fun u => (u, some SeatRole.OPERATOR)))
    ++ (((g.drop dk).drop op).map (fun u => (u, (none : Option SeatRole))))

/-- The users extracted for slot `s` (solver.py lines 317-321): ascending user
order, one per `x[u, s] = 1`. -/
def usersAssignedToSlot (ctx : SchedulerContext) (x : Assign) (s : Nat) : List Nat :=
  (List.range ctx.users.length).filter (fun u => x u s)

/-- Seat roles of a slot after `_assign_desk_operator_roles`: the role pass is
applied to A slots only; assignments of every other slot keep
`seat_role = None`. -/
def slotSeatRoles (ctx : SchedulerContext) (x : Assign) (s : Nat) :
    List (Nat × Option SeatRole) :=
  if dutyTypeOfSlot ctx s = .A then assignRolesGroup (usersAssignedToSlot ctx x s)
  else (usersAssignedToSlot ctx x s).map (fun u => (u, (none : Option SeatRole)))

/-- Number of entries carrying the given role. -/
def countRole (l : List (Nat × Option SeatRole)) (r : SeatRole) : Nat :=
  (l.filter (fun p => decide (p.2 = some r))).length

/-- schemas/schedule_senior.py `SeniorUserHistory` (all fields `ge=0`,
default 0). -/
structure SeniorUserHistory where
  totalAllTime : Int := 0
  countAAllTime : Int := 0
  countMorningAllTime : Int := 0
  countEveningAllTime : Int := 0

/-- schemas/schedule_senior.py `SeniorUser`. -/
structure SeniorUserReq where
  id : String
  name : String
  likesMorning : Bool := false
  likesEvening : Bool := false
  history : SeniorUserHistory := {}

/-- schemas/schedule_senior.py `SeniorSlot` (`dutyType` is always A). -/
structure SeniorSlotReq where
  id : String
  slot_date : Int
  segment : Segment
  seats : List Seat

/-- schemas/schedule_senior.py `SeniorScheduleRequest`. -/
structure SeniorScheduleRequest where
  period : Period
  users : List SeniorUserReq
  slots : List SeniorSlotReq
  unavailability : List Unavailability := []

/-- senior_solver.py `SeniorInternalUser`. -/
structure SeniorInternalUser where
  id : String := ""
  name : String := ""
  history_total : Int := 0
  history_a : Int := 0
  history_morning : Int := 0
  history_evening : Int := 0
  deriving DecidableEq

/-- senior_solver.py `SeniorInternalSlot` (index is the list position). -/
structure SeniorInternalSlot where
  id : String := ""
  date : Int
  segment : Segment
  required_count : Nat
  seats : List String := []
  deriving DecidableEq

/-- senior_solver.py `SeniorContext`. -/
structure SeniorContext where
  users : List SeniorInternalUser
  slots : List SeniorInternalSlot
  unavailability_set : List (Nat × Nat) := []
  total_seats : Nat := 0
  base_shifts : Nat := 0
  period_start : Option Int := none
  deriving DecidableEq

/-- `SeniorSchedulerSolver._build_context` (senior_solver.py lines 175-226). -/
def mkSeniorContext (r : SeniorScheduleRequest) : SeniorContext :=
  { users := r.users.map (fun u =>
      { id := u.id
        name := u.name
        history_total := u.history.totalAllTime
        history_a := u.history.countAAllTime
        history_morning := u.history.countMorningAllTime
        history_evening := u.history.countEveningAllTime })
    slots := r.slots.map (fun sl =>
      { id := sl.id
        date := sl.slot_date
        segment := sl.segment
        required_count := sl.seats.length
        seats := sl.seats.map Seat.id })
    unavailability_set :=
      buildUnavailabilitySet (r.users.map SeniorUserReq.id)
        (r.slots.map SeniorSlotReq.id) r.unavailability
    total_seats := (r.slots.map (fun sl => sl.seats.length)).sum
    base_shifts :=
      if r.users.length = 0 then 0
      else (r.slots.map (fun sl => sl.seats.length)).sum / r.users.length
    period_start := some r.period.startDate }

/-- Date of the senior slot at position `s`. -/
def seniorSlotDate (ctx : SeniorContext) (s : Nat) : Int :=
  ((ctx.slots.get? s).map SeniorInternalSlot.date).getD 0

/-- Required count of the senior slot at position `s`. -/
def seniorRequiredCountAt (ctx : SeniorContext) (s : Nat) : Nat :=
  ((ctx.slots.get? s).map SeniorInternalSlot.required_count).getD 0

/-- Per-user shift count in the senior variant. -/
def seniorUserCount (ctx : SeniorContext) (x : Assign) (u : Nat) : Int :=
  ((List.range ctx.slots.length).map (fun s => indicator (x u s))).sum

/-- Assigned users of a senior slot. -/
def seniorSlotAssignedCount (ctx : SeniorContext) (x : Assign) (s : Nat) : Int :=
  ((List.range ctx.users.length).map (fun u => indicator (x u s))).sum

/-- Distinct senior slot dates (keys of `date_to_slot_indices`). -/
def seniorDateKeys (ctx : SeniorContext) : List Int :=
  dedupKeepFirst (ctx.slots.map SeniorInternalSlot.date)

/-- `date_to_slot_indices[d]` of the senior context. -/
def seniorDateSlotIndices (ctx : SeniorContext) (d : Int) : List Nat :=
  (List.range ctx.slots.length).filter (fun i => decide (seniorSlotDate ctx i = d))

/-- The hard constraints of the senior variant (senior_solver.py lines
255-272): coverage, the UPPER shift cap `count <= base + 2`, and at most 2
segments per date.  Unlike the full variant there is NO hard lower bound on
the per-user count (subject of claim C3). -/
def seniorHardSat (ctx : SeniorContext) (x : Assign) : Bool :=
  (List.range ctx.slots.length).all (fun s =>
    decide (seniorSlotAssignedCount ctx x s = (seniorRequiredCountAt ctx s : Int)))
  && (List.range ctx.users.length).all (fun u =>
    decide (seniorUserCount ctx x u ≤ (ctx.base_shifts : Int) + 2))
  && (seniorDateKeys ctx).all (fun d =>
    (List.range ctx.users.length).all (fun u =>
      decide (countOver x u (seniorDateSlotIndices ctx d) ≤ 2)))

/-- senior_solver.py `PENALTY_WEEKLY_CLUSTER`. -/
def PENALTY_WEEKLY_CLUSTER : Int := 100

/-- `SeniorSchedulerSolver._add_weekly_clustering_penalty` (senior_solver.py
lines 472-498): buckets anchored at `context.period_start` (the request's
period start date); `max(0, weekCount - 2) * 100` per user and bucket; nothing
is added when `period_start` is `None`. -/
def seniorWeeklyClusteringPenalty (ctx : SeniorContext) (x : Assign) : Int :=
  match ctx.period_start with
  | none => 0
  | some ps =>
    let dates := ctx.slots.map SeniorInternalSlot.date
    ((List.range ctx.users.length).map (fun u =>
      ((weekBuckets ps dates).map (fun w =>
        max 0 (countOver x u (bucketSlotIdx ps dates w) - 2)
          * PENALTY_WEEKLY_CLUSTER)).sum)).sum

/-- A user literal as the repository's own tests build them: empty history
with `expectedTotal` explicitly 0. -/
def testUser (uid : String) : User :=
  { id := uid, name := uid, history := { expectedTotal := some 0 } }

/-- A single-seat slot literal. -/
def testSlot (sid : String) (d : Int) (t : DutyType) : Slot :=
  { id := sid, slot_date := d, dutyType := t, dayType := .WEEKDAY
    seats := [{ id := sid ++ "-s0" }] }

/-- A test period starting at day 0. -/
def testPeriod : Period :=
  { id := "period-1", name := "Test Period", startDate := 0, endDate := 30 }

/-- The shape of the repository's basic API test request
(tests/test_api.py `test_compute_schedule_basic`): two users, two single-seat
slots A and B on consecutive days, no unavailability. -/
def reqBasic : ScheduleRequest :=
  { period := testPeriod
    users := [testUser ("user-1"), testUser ("user-2")]
    slots := [testSlot ("slot-1") 0 .A, testSlot ("slot-2") 1 .B] }

/-- Claim C2 input: two users, one single-seat A slot. -/
def reqZero : ScheduleRequest :=
  { period := testPeriod
    users := [testUser ("u1"), testUser ("u2")]
    slots := [testSlot ("s1") 0 .A] }

/-- Solution of `reqZero` assigning the slot to user 0; user 1 has zero
shifts. -/
def xZero : Assign := fun u s => decide (u = 0 ∧ s = 0)

/-- Claim C4 input: a valid request whose unavailability entry references the
nonexistent slot id sX. -/
def reqUnknownId : ScheduleRequest :=
  { period := testPeriod
    users := [testUser ("u1")]
    slots := [testSlot ("s1") 0 .A]
    unavailability := [{ userId := "u1", slotId := "sX" }] }

/-- Claim C6 input: one user whose history omits `expectedTotal`
(pydantic then defaults it to `None`), four single-seat slots. -/
def reqNoExpected : ScheduleRequest :=
  { period := testPeriod
    users := [{ id := "u1", name := "u1"
                history := { weekdayCount := 3, weekendCount := 2 } }]
    slots := [testSlot ("s1") 0 .A, testSlot ("s2") 1 .A,
              testSlot ("s3") 2 .A, testSlot ("s4") 3 .A] }

/-- Claim C5 input: the period starts at day 0 but the first slot is on day 5;
four single-seat A slots on days 5, 6, 7, 8, one user. -/
def reqLateSlots : ScheduleRequest :=
  { period := testPeriod
    users := [testUser ("u1")]
    slots := [testSlot ("a5") 5 .A, testSlot ("a6") 6 .A,
              testSlot ("a7") 7 .A, testSlot ("a8") 8 .A] }

/-- The (forced) solution of `reqLateSlots`: its only user takes every slot. -/
def xAll : Assign := fun u _ => decide (u = 0)

/-- A same-day night/morning pair: two users, a C slot and an A slot both on
day 0 (the shape of scenario 2 of the spec). -/
def reqPair : ScheduleRequest :=
  { period := testPeriod
    users := [testUser ("u1"), testUser ("u2")]
    slots := [testSlot ("c0") 0 .C, testSlot ("a0") 0 .A] }

/-- Solution of `reqPair`: user 0 takes the C slot, user 1 the A slot. -/
def xPair : Assign := fun u s => decide ((u = 0 ∧ s = 0) ∨ (u = 1 ∧ s = 1))

/-- Claim C10 inputs: an unavailability entry and the same request carrying it
once and twice. -/
def dupEntry : Unavailability := { userId := "u1", slotId := "s1" }

/-- Request with the pair once. -/
def reqOnce : ScheduleRequest :=
  { period := testPeriod
    users := [testUser ("u1"), testUser ("u2")]
    slots := [testSlot ("s1") 0 .A, testSlot ("s2") 1 .B]
    unavailability := [dupEntry] }

/-- Request with the pair twice. -/
def reqTwice : ScheduleRequest :=
  { period := testPeriod
    users := [testUser ("u1"), testUser ("u2")]
    slots := [testSlot ("s1") 0 .A, testSlot ("s2") 1 .B]
    unavailability := [dupEntry, dupEntry] }

/-- Claim C3 senior input: three senior users and nine single-seat MORNING
slots on days 0..8, so `base = 9 // 3 = 3`. -/
def reqSenior : SeniorScheduleRequest :=
  { period := testPeriod
    users := [{ id := "n1", name := "n1" }, { id := "n2", name := "n2" },
              { id := "n3", name := "n3" }]
    slots := (List.range 9).map (fun i =>
      { id := "m" ++ toString i, slot_date := (i : Int), segment := .MORNING
        seats := [{ id := "m" ++ toString i ++ "-s0" }] }) }

/-- A solution of `reqSenior` satisfying all senior hard constraints in which
user 2 receives zero shifts (user 0 takes slots 0..4, user 1 slots 5..8). -/
def xSenior : Assign :=
  fun u s => decide ((u = 0 ∧ s < 5) ∨ (u = 1 ∧ 5 ≤ s ∧ s < 9))

/-- The spec reading of `blockedPerCategory[user][cat]` (spec section 3): the
number of unavailability pairs of the user whose slot falls in the category
(Weekend aggregating D, E, F).  Comparison definition for claim C7. -/
def blockedPerCategorySpec (ctx : SchedulerContext) (u : Nat) (c : Cat) : Nat :=
  (ctx.unavailability_set.filter (fun p =>
    decide (p.1 = u ∧ getCategory (dutyTypeOfSlot ctx p.2) = c))).length

/-- The spec reading of `totalBlocked[user]`: the number of unavailability
pairs of the user, over all categories. -/
def totalBlockedSpec (ctx : SchedulerContext) (u : Nat) : Nat :=
  (ctx.unavailability_set.filter (fun p => decide (p.1 = u))).length

/-- The spec reading of `maxBlockedPerCategory[cat]`: the maximum of the
per-user blocked counts of that category. -/
def maxBlockedPerCategorySpec (ctx : SchedulerContext) (c : Cat) : Nat :=
  ((List.range ctx.users.length).map (fun u => blockedPerCategorySpec ctx u c)).foldl
    max 0

/-- The spec reading of `maxTotalBlocked`. -/
def maxTotalBlockedSpec (ctx : SchedulerContext) : Nat :=
  ((List.range ctx.users.length).map (totalBlockedSpec ctx)).foldl max 0

/-! ### Helper lemmas -/

theorem mem_insertNew {α : Type} [DecidableEq α] (l : List α) (b a : α) :
    a ∈ insertNew l b ↔ a ∈ l ∨ a = b := by
  unfold insertNew
  split_ifs with h
  · constructor
    · exact fun ha => Or.inl ha
    · rintro (ha | rfl)
      · exact ha
      · exact h
  · simp [List.mem_append]

theorem mem_foldl_insertNew {α : Type} [DecidableEq α] (l : List α) :
    ∀ (acc : List α) (a : α), a ∈ l.foldl insertNew acc ↔ a ∈ acc ∨ a ∈ l := by
  induction l with
  | nil => simp
  | cons b rest ih =>
    intro acc a
    rw [List.foldl_cons, ih, mem_insertNew]
    simp only [List.mem_cons]
    tauto

theorem mem_dedupKeepFirst {α : Type} [DecidableEq α] (l : List α) (a : α) :
    a ∈ dedupKeepFirst l ↔ a ∈ l := by
  unfold dedupKeepFirst
  rw [mem_foldl_insertNew]
  simp

/-! ### Claim theorems -/

/-- Claim C1 (code_bug evaluation): the shape of the repository's own basic
API test request passes schema validation, yet `_build_context` raises
`AttributeError` on it, because `SchedulerContext` (models.py) never declares
the `total_blocked_count` attribute that solver.py line 172 reads.  `solve`
therefore raises instead of returning a response for every request with at
least one user. -/
theorem full_solve_raises_attribute_error :
    validScheduleRequest reqBasic = true
    ∧ buildContextRun reqBasic =
        .error ("AttributeError: SchedulerContext object has no attribute total_blocked_count") :=
  ⟨rfl, rfl⟩

/-- Claim C2 (code_bug evaluation): on the two-user, one-slot context with the
slot given to user 0, user 1 has zero shifts, the zero-shifts term of
`_add_zero_shifts_penalty` would be 80000, yet the objective that
`build_all_penalties` actually assembles is 107000 = 50000 (total MinMax, at
the spec-directed default weight) + 50000 (duty-type fairness) + 4000 (ideal
soft) + 3000 (history fairness): it contains no zero-shifts contribution,
because `build_all_penalties` never invokes `_add_zero_shifts_penalty`. -/
theorem zero_shifts_term_missing_from_objective :
    fullObjective settingsDefault 50000 (buildContext reqZero) xZero = .ok 107000
    ∧ userShiftCount (buildContext reqZero) xZero 1 = 0
    ∧ zeroShiftsPenalty settingsDefault (buildContext reqZero) xZero = 80000 :=
  ⟨rfl, rfl, rfl⟩

/-- Claim C3 counterexample: a senior-variant context (3 users, 9 single-seat
slots, so base = 3) and a solution satisfying EVERY hard constraint the senior
solver emits, in which user 2 has 0 shifts, strictly below the claimed hard
lower band max(0, base - 2) = 1: the senior model has no hard lower bound. -/
theorem shift_band_counterexample :
    seniorHardSat (mkSeniorContext reqSenior) xSenior = true
    ∧ (mkSeniorContext reqSenior).base_shifts = 3
    ∧ seniorUserCount (mkSeniorContext reqSenior) xSenior 2 = 0
    ∧ ¬(max 0 (((mkSeniorContext reqSenior).base_shifts : Int) - 2) ≤
        seniorUserCount (mkSeniorContext reqSenior) xSenior 2) := by
  refine ⟨rfl, rfl, rfl, ?_⟩
  decide

/-- Claim C4 counterexample: a schema-valid request whose unavailability entry
references the unknown slot id sX is NOT rejected: the id resolves to nothing
and `_build_context` silently drops the pair, leaving the unavailability set
empty, and the solve proceeds. -/
theorem unknown_unavailability_counterexample :
    validScheduleRequest reqUnknownId = true
    ∧ reqUnknownId.unavailability = [{ userId := "u1", slotId := "sX" }]
    ∧ lastIndexOf (reqUnknownId.slots.map Slot.id) ("sX") = none
    ∧ (buildContext reqUnknownId).unavailability_set = [] :=
  ⟨rfl, rfl, rfl, rfl⟩

/-- Claim C5 counterexample: the period starts at day 0 but the slots lie on
days 5..8.  The full variant anchors its week buckets at the earliest slot
date (day 5), putting all four slots in one bucket and charging
(4 - 2) * 100 = 200, while the claimed bucketing from the period start date
splits them 2/2 across buckets and charges 0. -/
theorem weekly_clustering_counterexample :
    weeklyClusteringPenaltyFull settingsDefault (buildContext reqLateSlots) xAll = 200
    ∧ weeklyClusteringPenaltySpec settingsDefault.penalty_weekly_clustering
        reqLateSlots.period.startDate (buildContext reqLateSlots).users.length
        ((buildContext reqLateSlots).slots.map InternalSlot.date) xAll = 0
    ∧ minSlotDate (buildContext reqLateSlots) = 5
    ∧ reqLateSlots.period.startDate = 0 :=
  ⟨rfl, rfl, rfl, rfl⟩

/-- Claim C6 (code_bug evaluation): when a history omits `expectedTotal`,
pydantic defaults it to `None`, and `_compute_ideal_current` raises
`TypeError` on `history_total - history_expected` instead of treating the
value as 0; the spec-mandated behavior would yield
ideal = clamp(4 - (5 - 0), max(0, 2), 6) = 2 for this user (base = 4). -/
theorem expected_total_none_raises_type_error :
    computeIdealCurrent (buildContext reqNoExpected) =
      .error ("TypeError: unsupported operand types for int minus NoneType")
    ∧ computeIdealCurrentSpec (buildContext reqNoExpected) = [2]
    ∧ (buildContext reqNoExpected).base_shifts = 4 :=
  ⟨rfl, rfl, rfl⟩

theorem mem_dateSlotIndices (ctx : SchedulerContext) (i : Nat)
    (hi : i < ctx.slots.length) : i ∈ dateSlotIndices ctx (slotDate ctx i) := by
  unfold dateSlotIndices
  exact List.mem_filter.mpr ⟨List.mem_range.mpr hi, by simp⟩

theorem slotDate_mem_dateKeys (ctx : SchedulerContext) (i : Nat)
    (hi : i < ctx.slots.length) : slotDate ctx i ∈ dateKeys ctx := by
  unfold dateKeys
  rw [mem_dedupKeepFirst]
  have h : ctx.slots.get? i = some (ctx.slots.get ⟨i, hi⟩) := List.get?_eq_get hi
  unfold slotDate
  rw [h]
  exact List.mem_map.mpr ⟨ctx.slots.get ⟨i, hi⟩, List.get_mem _ _ _, rfl⟩

/-- Claim C3 (amended): the FULL variant enforces the two-sided hard band
`max(0, base - 2) <= count[u] <= base + 2` (constraints.py
`add_max_shifts_constraint` with `max_allowed = base + 2`); the SENIOR variant
only enforces the upper cap `count[u] <= base + 2` as a hard constraint. -/
theorem shift_band_hard_constraints :
    (∀ (ctx : SchedulerContext) (x : Assign) (u : Nat),
      fullHardSat ctx x = true → u < ctx.users.length →
      max 0 ((ctx.base_shifts : Int) - 2) ≤ userShiftCount ctx x u
        ∧ userShiftCount ctx x u ≤ (ctx.base_shifts : Int) + 2)
    ∧ (∀ (sctx : SeniorContext) (x : Assign) (u : Nat),
      seniorHardSat sctx x = true → u < sctx.users.length →
      seniorUserCount sctx x u ≤ (sctx.base_shifts : Int) + 2) := by
  constructor
  · intro ctx x u hs hu
    have hms : maxShiftsOk ctx x = true := by
      unfold fullHardSat at hs
      simp only [Bool.and_eq_true] at hs
      exact hs.2
    unfold maxShiftsOk at hms
    rw [List.all_eq_true] at hms
    have h := hms u (List.mem_range.mpr hu)
    simp only [Bool.and_eq_true, decide_eq_true_eq] at h
    obtain ⟨h1, h2⟩ := h
    refine ⟨?_, h1⟩
    have he : ((ctx.base_shifts : Int) + 2 - 4) = (ctx.base_shifts : Int) - 2 := by ring
    rw [he] at h2
    exact h2
  · intro sctx x u hs hu
    have hms := hs
    unfold seniorHardSat at hms
    simp only [Bool.and_eq_true] at hms
    have h := hms.1.2
    rw [List.all_eq_true] at h
    have h2 := h u (List.mem_range.mpr hu)
    simpa using h2

theorem shift_band_hard_constraints_witness :
    (max 0 (((buildContext reqPair).base_shifts : Int) - 2) ≤
        userShiftCount (buildContext reqPair) xPair 0
      ∧ userShiftCount (buildContext reqPair) xPair 0 ≤
        ((buildContext reqPair).base_shifts : Int) + 2)
    ∧ seniorUserCount (mkSeniorContext reqSenior) xSenior 0 ≤
        ((mkSeniorContext reqSenior).base_shifts : Int) + 2 :=
  ⟨shift_band_hard_constraints.1 (buildContext reqPair) xPair 0 (by decide) (by decide),
   shift_band_hard_constraints.2 (mkSeniorContext reqSenior) xSenior 0 (by decide)
     (by decide)⟩

/-- Claim C9: in any solution satisfying the hard constraints the full solver
emits, no user holds both a night slot (C/F) and a morning slot (A/D) dated
the same day: the pairwise constraints of
`add_forbidden_transition_constraint` cover every such pair, because the
date grouping covers every slot. -/
theorem no_same_day_night_morning
    (ctx : SchedulerContext) (x : Assign) (u i j : Nat)
    (hs : fullHardSat ctx x = true)
    (hu : u < ctx.users.length)
    (hi : i < ctx.slots.length) (hj : j < ctx.slots.length)
    (hd : slotDate ctx i = slotDate ctx j)
    (hni : is_night_duty (dutyTypeOfSlot ctx i) = true)
    (hmj : is_morning_duty (dutyTypeOfSlot ctx j) = true) :
    ¬(x u i = true ∧ x u j = true) := by
  rintro ⟨hxi, hxj⟩
  have hforb : forbiddenTransitionOk ctx x = true := by
    unfold fullHardSat at hs
    simp only [Bool.and_eq_true] at hs
    exact hs.1.2
  unfold forbiddenTransitionOk at hforb
  rw [List.all_eq_true] at hforb
  have hd1 := hforb (slotDate ctx i) (slotDate_mem_dateKeys ctx i hi)
  simp only [List.all_eq_true, decide_eq_true_eq] at hd1
  have hmem_i : i ∈ (dateSlotIndices ctx (slotDate ctx i)).filter
      (fun k => is_night_duty (dutyTypeOfSlot ctx k)) :=
    List.mem_filter.mpr ⟨mem_dateSlotIndices ctx i hi, hni⟩
  have hmem_j : j ∈ (dateSlotIndices ctx (slotDate ctx i)).filter
      (fun k => is_morning_duty (dutyTypeOfSlot ctx k)) := by
    refine List.mem_filter.mpr ⟨?_, hmj⟩
    rw [hd]
    exact mem_dateSlotIndices ctx j hj
  have hle := hd1 u (List.mem_range.mpr hu) i hmem_i j hmem_j
  rw [hxi, hxj] at hle
  norm_num [indicator] at hle

theorem no_same_day_night_morning_witness :
    ¬(xPair 0 0 = true ∧ xPair 0 1 = true) :=
  no_same_day_night_morning (buildContext reqPair) xPair 0 0 1 (by decide)
    (by decide) (by decide) (by decide) (by decide) (by decide) (by decide)

theorem mem_unavailStep (uids sids : List String) (acc : List (Nat × Nat))
    (e : Unavailability) (q : Nat × Nat) :
    q ∈ (match lastIndexOf uids e.userId, lastIndexOf sids e.slotId with
          | some u, some s => insertNew acc (u, s)
          | _, _ => acc)
    ↔ q ∈ acc ∨ (lastIndexOf uids e.userId = some q.1
        ∧ lastIndexOf sids e.slotId = some q.2) := by
  rcases hu : lastIndexOf uids e.userId with _ | u
  · simp [hu]
  · rcases hs2 : lastIndexOf sids e.slotId with _ | s
    · simp [hu, hs2]
    · simp only [hu, hs2, Option.some.injEq]
      rw [mem_insertNew]
      constructor
      · rintro (h | rfl)
        · exact Or.inl h
        · exact Or.inr ⟨rfl, rfl⟩
      · rintro (h | ⟨h1, h2⟩)
        · exact Or.inl h
        · right
          obtain ⟨q1, q2⟩ := q
          simp only at h1 h2
          rw [h1, h2]

theorem mem_foldl_unavailStep (uids sids : List String)
    (entries : List Unavailability) :
    ∀ (acc : List (Nat × Nat)) (q : Nat × Nat),
    q ∈ entries.foldl (fun acc e =>
        match lastIndexOf uids e.userId, lastIndexOf sids e.slotId with
        | some u, some s => insertNew acc (u, s)
        | _, _ => acc) acc
    ↔ q ∈ acc ∨ ∃ e ∈ entries, lastIndexOf uids e.userId = some q.1
        ∧ lastIndexOf sids e.slotId = some q.2 := by
  induction entries with
  | nil => intro acc q; simp
  | cons e rest ih =>
    intro acc q
    rw [List.foldl_cons, ih, mem_unavailStep]
    simp only [List.mem_cons]
    constructor
    · rintro ((h | hC) | ⟨e2, he2, hC2⟩)
      · exact Or.inl h
      · exact Or.inr ⟨e, Or.inl rfl, hC⟩
      · exact Or.inr ⟨e2, Or.inr he2, hC2⟩
    · rintro (h | ⟨e2, (rfl | he2), hC2⟩)
      · exact Or.inl (Or.inl h)
      · exact Or.inl (Or.inr hC2)
      · exact Or.inr ⟨e2, he2, hC2⟩

theorem mem_buildUnavailabilitySet (uids sids : List String)
    (entries : List Unavailability) (q : Nat × Nat) :
    q ∈ buildUnavailabilitySet uids sids entries
    ↔ ∃ e ∈ entries, lastIndexOf uids e.userId = some q.1
        ∧ lastIndexOf sids e.slotId = some q.2 := by
  unfold buildUnavailabilitySet
  rw [mem_foldl_unavailStep]
  simp

/-- Claim C4 (amended): a request-level unavailability pair lands in the
unavailability set exactly when BOTH its ids resolve; a pair with an unknown
userId or slotId is silently dropped by `_build_context` — validation never
rejects it and the solve proceeds. -/
theorem unknown_unavailability_silently_dropped
    (r : ScheduleRequest) (u s : Nat) :
    (u, s) ∈ (buildContext r).unavailability_set
    ↔ ∃ e ∈ r.unavailability,
        lastIndexOf (r.users.map User.id) e.userId = some u
        ∧ lastIndexOf (r.slots.map Slot.id) e.slotId = some s := by
  have h := mem_buildUnavailabilitySet (r.users.map User.id)
    (r.slots.map Slot.id) r.unavailability (u, s)
  exact h

theorem build_insert_dup (uids sids : List String)
    (pre suf : List Unavailability) (e : Unavailability) (he : e ∈ pre) :
    buildUnavailabilitySet uids sids (pre ++ e :: suf)
      = buildUnavailabilitySet uids sids (pre ++ suf) := by
  unfold buildUnavailabilitySet
  rw [List.foldl_append, List.foldl_append, List.foldl_cons]
  congr 1
  rcases hu : lastIndexOf uids e.userId with _ | u
  · simp [hu]
  · rcases hs2 : lastIndexOf sids e.slotId with _ | s
    · simp [hu, hs2]
    · simp only [hu, hs2]
      unfold insertNew
      rw [if_pos]
      exact (mem_foldl_unavailStep uids sids pre [] (u, s)).mpr
        (Or.inr ⟨e, he, by simp [hu], by simp [hs2]⟩)

/-- Claim C10: inserting a duplicate of an unavailability entry anywhere after
its first occurrence leaves the built unavailability set — and with it the
blocked counts, the per-category and total maxima, the whole objective, and
the violation statistics — unchanged: the pair set is deduplicated and every
penalty and statistics computation iterates that set. -/
theorem duplicate_unavailability_idempotent
    (r : ScheduleRequest) (pre suf : List Unavailability) (e : Unavailability)
    (hr : r.unavailability = pre ++ e :: suf) (he : e ∈ pre) :
    (buildContext r).unavailability_set
        = (buildContext { r with unavailability := pre ++ suf }).unavailability_set
    ∧ (∀ u c, blockedCountPerCategory (buildContext r) u c
        = blockedCountPerCategory (buildContext { r with unavailability := pre ++ suf }) u c)
    ∧ (∀ c, maxBlockedPerCategory (buildContext r) c
        = maxBlockedPerCategory (buildContext { r with unavailability := pre ++ suf }) c)
    ∧ (∀ u, totalBlockedCount (buildContext r) u
        = totalBlockedCount (buildContext { r with unavailability := pre ++ suf }) u)
    ∧ maxTotalBlocked (buildContext r)
        = maxTotalBlocked (buildContext { r with unavailability := pre ++ suf })
    ∧ (∀ (s : Settings) (wtm : Int) (x : Assign),
        fullObjective s wtm (buildContext r) x
          = fullObjective s wtm (buildContext { r with unavailability := pre ++ suf }) x)
    ∧ (∀ x, unavailabilityViolationsStat (buildContext r) x
        = unavailabilityViolationsStat (buildContext { r with unavailability := pre ++ suf }) x) := by
  have hctx : buildContext r = buildContext { r with unavailability := pre ++ suf } := by
    unfold buildContext
    rw [hr, build_insert_dup _ _ pre suf e he]
  rw [hctx]
  exact ⟨rfl, fun _ _ => rfl, fun _ => rfl, fun _ => rfl, rfl,
    fun _ _ _ => rfl, fun _ => rfl⟩

theorem duplicate_unavailability_idempotent_witness :
    (buildContext reqTwice).unavailability_set
      = (buildContext reqOnce).unavailability_set :=
  (duplicate_unavailability_idempotent reqTwice [dupEntry] [] dupEntry rfl
    (by simp)).1

theorem sum_map_congr {α : Type} (l : List α) (f g : α → Int)
    (h : ∀ a ∈ l, f a = g a) : (l.map f).sum = (l.map g).sum := by
  induction l with
  | nil => rfl
  | cons b rest ih =>
    simp only [List.map_cons, List.sum_cons]
    rw [h b (List.mem_cons_self b rest),
      ih (fun a ha => h a (List.mem_cons_of_mem b ha))]

theorem countOver_le_length (x : Assign) (u : Nat) :
    ∀ l : List Nat, countOver x u l ≤ (l.length : Int) := by
  intro l
  induction l with
  | nil => simp [countOver]
  | cons i rest ih =>
    have hind : indicator (x u i) ≤ 1 := by
      unfold indicator
      split <;> norm_num
    unfold countOver at ih ⊢
    simp only [List.map_cons, List.sum_cons, List.length_cons]
    push_cast
    omega

/-- Claim C5 (amended): the weekly-clustering penalty is exactly the claimed
per-user, per-bucket `max(0, weekCount - 2) * w_weekly` sum in both variants,
but the bucket anchor differs: the FULL variant anchors the 7-day buckets at
the EARLIEST SLOT DATE (its penalty builder never sees the period), while the
SENIOR variant anchors them at the period start date. -/
theorem weekly_clustering_bucket_anchors :
    (∀ (s : Settings) (ctx : SchedulerContext) (x : Assign),
      weeklyClusteringPenaltyFull s ctx x
        = weeklyClusteringPenaltySpec s.penalty_weekly_clustering (minSlotDate ctx)
            ctx.users.length (ctx.slots.map InternalSlot.date) x)
    ∧ (∀ (sctx : SeniorContext) (ps : Int) (x : Assign),
      sctx.period_start = some ps →
      seniorWeeklyClusteringPenalty sctx x
        = weeklyClusteringPenaltySpec PENALTY_WEEKLY_CLUSTER ps
            sctx.users.length (sctx.slots.map SeniorInternalSlot.date) x) := by
  constructor
  · intro s ctx x
    unfold weeklyClusteringPenaltyFull weeklyClusteringPenaltySpec
    by_cases hemp : ctx.slots.isEmpty
    · rw [if_pos hemp]
      have hnil : ctx.slots = [] := by
        cases h : ctx.slots with
        | nil => rfl
        | cons a l => rw [h] at hemp; simp [List.isEmpty] at hemp
      rw [hnil]
      simp [weekBuckets, dedupKeepFirst]
    · rw [if_neg hemp]
      apply sum_map_congr
      intro u _
      apply sum_map_congr
      intro w _
      by_cases hlen :
        (bucketSlotIdx (minSlotDate ctx) (ctx.slots.map InternalSlot.date) w).length < 3
      · rw [if_pos hlen]
        have hle := countOver_le_length x u
          (bucketSlotIdx (minSlotDate ctx) (ctx.slots.map InternalSlot.date) w)
        have hz : max 0 (countOver x u
            (bucketSlotIdx (minSlotDate ctx) (ctx.slots.map InternalSlot.date) w) - 2) = 0 := by
          have h2 : ((bucketSlotIdx (minSlotDate ctx)
              (ctx.slots.map InternalSlot.date) w).length : Int) ≤ 2 := by
            exact_mod_cast Nat.le_of_lt_succ hlen
          omega
        rw [hz, zero_mul]
      · rw [if_neg hlen]
  · intro sctx ps x h
    unfold seniorWeeklyClusteringPenalty
    rw [h]
    rfl

theorem weekly_clustering_bucket_anchors_witness :
    seniorWeeklyClusteringPenalty (mkSeniorContext reqSenior) xSenior
      = weeklyClusteringPenaltySpec PENALTY_WEEKLY_CLUSTER 0
          (mkSeniorContext reqSenior).users.length
          ((mkSeniorContext reqSenior).slots.map SeniorInternalSlot.date) xSenior :=
  weekly_clustering_bucket_anchors.2 (mkSeniorContext reqSenior) 0 xSenior rfl

theorem foldBump_eq (catF : Nat → Cat) (l : List (Nat × Nat)) :
    ∀ (f : Nat → Cat → Nat) (u : Nat) (c : Cat),
    (l.foldl (fun g p => bumpBlocked g p.1 (catF p.2)) f) u c
      = f u c + (l.filter (fun p => decide (p.1 = u ∧ catF p.2 = c))).length := by
  induction l with
  | nil =>
    intro f u c
    simp
  | cons p rest ih =>
    intro f u c
    rw [List.foldl_cons, ih, List.filter_cons]
    by_cases h : p.1 = u ∧ catF p.2 = c
    · rw [if_pos (by simpa using h)]
      simp only [bumpBlocked]
      rw [if_pos ⟨h.1.symm, h.2.symm⟩]
      simp only [List.length_cons]
      omega
    · rw [if_neg (by simpa using h)]
      simp only [bumpBlocked]
      rw [if_neg (fun hc => h ⟨hc.1.symm, hc.2.symm⟩)]

theorem blockedCountPerCategory_eq_spec (ctx : SchedulerContext) (u : Nat) (c : Cat) :
    blockedCountPerCategory ctx u c = blockedPerCategorySpec ctx u c := by
  unfold blockedCountPerCategory blockedPerCategorySpec
  simpa using foldBump_eq (fun s => getCategory (dutyTypeOfSlot ctx s))
    ctx.unavailability_set (fun _ _ => 0) u c

theorem filter_cat_partition (catF : Nat → Cat) (u : Nat) :
    ∀ l : List (Nat × Nat),
    (l.filter (fun p => decide (p.1 = u ∧ catF p.2 = Cat.A))).length
    + (l.filter (fun p => decide (p.1 = u ∧ catF p.2 = Cat.B))).length
    + (l.filter (fun p => decide (p.1 = u ∧ catF p.2 = Cat.C))).length
    + (l.filter (fun p => decide (p.1 = u ∧ catF p.2 = Cat.Weekend))).length
    = (l.filter (fun p => decide (p.1 = u))).length := by
  intro l
  induction l with
  | nil => simp
  | cons p rest ih =>
    simp only [List.filter_cons]
    by_cases hu : p.1 = u
    · cases hc : catF p.2
      · rw [if_pos (by simp [hu, hc]), if_neg (by simp [hu, hc]),
          if_neg (by simp [hu, hc]), if_neg (by simp [hu, hc]),
          if_pos (by simp [hu])]
        simp only [List.length_cons]
        omega
      · rw [if_neg (by simp [hu, hc]), if_pos (by simp [hu, hc]),
          if_neg (by simp [hu, hc]), if_neg (by simp [hu, hc]),
          if_pos (by simp [hu])]
        simp only [List.length_cons]
        omega
      · rw [if_neg (by simp [hu, hc]), if_neg (by simp [hu, hc]),
          if_pos (by simp [hu, hc]), if_neg (by simp [hu, hc]),
          if_pos (by simp [hu])]
        simp only [List.length_cons]
        omega
      · rw [if_neg (by simp [hu, hc]), if_neg (by simp [hu, hc]),
          if_neg (by simp [hu, hc]), if_pos (by simp [hu, hc]),
          if_pos (by simp [hu])]
        simp only [List.length_cons]
        omega
    · simp only [decide_eq_true_eq]
      rw [if_neg (fun hC => hu hC.1), if_neg (fun hC => hu hC.1),
        if_neg (fun hC => hu hC.1), if_neg (fun hC => hu hC.1), if_neg hu]
      exact ih

theorem totalBlockedCount_eq_spec (ctx : SchedulerContext) (u : Nat) :
    totalBlockedCount ctx u = totalBlockedSpec ctx u := by
  unfold totalBlockedCount totalBlockedSpec
  rw [blockedCountPerCategory_eq_spec, blockedCountPerCategory_eq_spec,
    blockedCountPerCategory_eq_spec, blockedCountPerCategory_eq_spec]
  unfold blockedPerCategorySpec
  exact filter_cat_partition (fun s => getCategory (dutyTypeOfSlot ctx s)) u
    ctx.unavailability_set

theorem map_congr_fun {α β : Type} (l : List α) (f g : α → β)
    (h : ∀ a ∈ l, f a = g a) : l.map f = l.map g := by
  induction l with
  | nil => rfl
  | cons b rest ih =>
    simp only [List.map_cons]
    rw [h b (List.mem_cons_self b rest),
      ih (fun a ha => h a (List.mem_cons_of_mem b ha))]

theorem maxBlockedPerCategory_eq_spec (ctx : SchedulerContext) (c : Cat) :
    maxBlockedPerCategory ctx c = maxBlockedPerCategorySpec ctx c := by
  unfold maxBlockedPerCategory maxBlockedPerCategorySpec
  rw [map_congr_fun (List.range ctx.users.length) _ _
    (fun u _ => blockedCountPerCategory_eq_spec ctx u c)]

theorem maxTotalBlocked_eq_spec (ctx : SchedulerContext) :
    maxTotalBlocked ctx = maxTotalBlockedSpec ctx := by
  unfold maxTotalBlocked maxTotalBlockedSpec
  rw [map_congr_fun (List.range ctx.users.length) _ _
    (fun u _ => totalBlockedCount_eq_spec ctx u)]

/-- Claim C7: for every pair of the unavailability set, the per-pair objective
coefficient equals the claimed formula, with the blocked statistics read off
the set by direct counting (`blockedPerCategorySpec` etc.), the category map
sending D/E/F to Weekend, and the default weights 200000, 1000 and
1000 / 10 = 100 (the unavailability term of the objective is
`x[u, s] * unavailPairCoeff` summed over the set, see
`unavailabilityPenalty`). -/
theorem unavailability_fairness_coefficient (ctx : SchedulerContext) (p : Nat × Nat) :
    unavailPairCoeff settingsDefault ctx p
      = 200000
        + ((maxBlockedPerCategorySpec ctx (getCategory (dutyTypeOfSlot ctx p.2)) : Int)
            - (blockedPerCategorySpec ctx p.1 (getCategory (dutyTypeOfSlot ctx p.2)) : Int))
          * 1000
        + ((maxTotalBlockedSpec ctx : Int) - (totalBlockedSpec ctx p.1 : Int)) * 100 := by
  unfold unavailPairCoeff
  rw [blockedCountPerCategory_eq_spec, totalBlockedCount_eq_spec,
    maxBlockedPerCategory_eq_spec, maxTotalBlocked_eq_spec]
  have hdiv : Int.fdiv (1000 : Int) 10 = 100 := by decide
  simp only [settingsDefault]
  rw [hdiv]

theorem countRole_append (l1 l2 : List (Nat × Option SeatRole)) (r : SeatRole) :
    countRole (l1 ++ l2) r = countRole l1 r + countRole l2 r := by
  unfold countRole
  rw [List.filter_append, List.length_append]

theorem countRole_map_some (l : List Nat) (r : SeatRole) :
    countRole (l.map (fun u => (u, some r))) r = l.length := by
  unfold countRole
  induction l with
  | nil => rfl
  | cons a rest ih =>
    simp only [List.map_cons, List.filter_cons]
    rw [if_pos (by simp)]
    simp only [List.length_cons]
    omega

theorem countRole_map_some_ne (l : List Nat) (r q : SeatRole) (h : ¬q = r) :
    countRole (l.map (fun u => (u, some q))) r = 0 := by
  unfold countRole
  induction l with
  | nil => rfl
  | cons a rest ih =>
    simp only [List.map_cons, List.filter_cons]
    rw [if_neg (by simp [h])]
    exact ih

theorem countRole_map_none (l : List Nat) (r : SeatRole) :
    countRole (l.map (fun u => (u, (none : Option SeatRole)))) r = 0 := by
  unfold countRole
  induction l with
  | nil => rfl
  | cons a rest ih =>
    simp only [List.map_cons, List.filter_cons]
    rw [if_neg (by simp)]
    exact ih

theorem deskOp_sum (k : Nat) :
    (calculate_desk_operator_distribution k).1
      + (calculate_desk_operator_distribution k).2 = k := by
  unfold calculate_desk_operator_distribution
  split_ifs <;> (simp_all; try omega)

theorem deskOp_fst_le (k : Nat) :
    (calculate_desk_operator_distribution k).1 ≤ k := by
  unfold calculate_desk_operator_distribution
  split_ifs <;> (simp_all; try omega)

/-- Claim C8: in every A slot with k >= 1 assignees the role pass hands out
exactly `desk_count` DESK and `operator_count` OPERATOR roles (whatever order
the priority sort produces), the split follows the fixed table with
`desk = ceil(k / 2) = (k + 1) / 2` for k >= 8, and every assignment of a
non-A slot keeps `seatRole = none`. -/
theorem desk_operator_role_split :
    (∀ g : List Nat, 1 ≤ g.length →
      countRole (assignRolesGroup g) SeatRole.DESK
          = (calculate_desk_operator_distribution g.length).1
        ∧ countRole (assignRolesGroup g) SeatRole.OPERATOR
          = (calculate_desk_operator_distribution g.length).2
        ∧ (calculate_desk_operator_distribution g.length).1
            + (calculate_desk_operator_distribution g.length).2 = g.length)
    ∧ (∀ (ctx : SchedulerContext) (x : Assign) (s : Nat) (p : Nat × Option SeatRole),
        ¬dutyTypeOfSlot ctx s = DutyType.A → p ∈ slotSeatRoles ctx x s → p.2 = none)
    ∧ calculate_desk_operator_distribution 1 = (0, 1)
    ∧ calculate_desk_operator_distribution 2 = (1, 1)
    ∧ calculate_desk_operator_distribution 3 = (1, 2)
    ∧ calculate_desk_operator_distribution 4 = (2, 2)
    ∧ calculate_desk_operator_distribution 5 = (3, 2)
    ∧ calculate_desk_operator_distribution 6 = (3, 3)
    ∧ calculate_desk_operator_distribution 7 = (4, 3)
    ∧ (∀ k, 8 ≤ k → calculate_desk_operator_distribution k
        = ((k + 1) / 2, k - (k + 1) / 2)) := by
  refine ⟨?_, ?_, rfl, rfl, rfl, rfl, rfl, rfl, rfl, ?_⟩
  · intro g hg
    have hsum := deskOp_sum g.length
    have hle := deskOp_fst_le g.length
    unfold assignRolesGroup
    refine ⟨?_, ?_, hsum⟩
    · rw [countRole_append, countRole_append, countRole_map_some,
        countRole_map_some_ne _ _ _ (by decide), countRole_map_none,
        List.length_take]
      omega
    · rw [countRole_append, countRole_append,
        countRole_map_some_ne _ _ _ (by decide), countRole_map_some,
        countRole_map_none, List.length_take, List.length_drop]
      omega
  · intro ctx x s p hne hp
    unfold slotSeatRoles at hp
    rw [if_neg hne] at hp
    obtain ⟨u, _, rfl⟩ := List.mem_map.mp hp
    rfl
  · intro k hk
    unfold calculate_desk_operator_distribution
    split_ifs <;> first | rfl | (exfalso; omega)

theorem desk_operator_role_split_witness :
    countRole (assignRolesGroup [7, 8, 9]) SeatRole.DESK
        = (calculate_desk_operator_distribution 3).1
    ∧ countRole (assignRolesGroup [7, 8, 9]) SeatRole.OPERATOR
        = (calculate_desk_operator_distribution 3).2
    ∧ ((0, (none : Option SeatRole)) : Nat × Option SeatRole).2 = none
    ∧ calculate_desk_operator_distribution 10 = (5, 5) := by
  have h := desk_operator_role_split
  refine ⟨(h.1 [7, 8, 9] (by decide)).1, (h.1 [7, 8, 9] (by decide)).2.1, ?_, ?_⟩
  · exact h.2.1 (buildContext reqPair) xPair 0 (0, none) (by decide) (by decide)
  · simpa using h.2.2.2.2.2.2.2.2.2 10 (by decide)

end NobetciSpec
